import Mathlib

/-!
Shallow embedding of the per-viewer connection lifecycle of the
webrtc-broadcast server (src/connection/peer.go, package connection).

External collaborators (the signaling transport, the pion negotiation
engine, the json codec, the inbound packet channel and the deregistration
channel) are modelled at their interface boundary: each fallible external
call takes its outcome as an explicit argument (success flag or parsed
value), and every call the session makes on a collaborator is recorded as
an event in an output trace, in program order.  Session state is passed
explicitly, so each Go method becomes a pure function from the session
state (plus the environment outcomes) to the new state and the trace of
events it emitted.
-/

namespace WebrtcBroadcast

/-- Observable actions a session performs on its collaborators, in program
order.  `sendMessage` is `signal.SendMessage(name, payload)` (payloads are
kept as strings; JSON serialization is the transport's concern),
`signalClose` is `signal.Close()`, `peerConnClose` is `peer.Close()` on the
negotiation-engine connection, `deregister` is the send of the session id
on the close channel, `setRemoteDesc` / `setLocalDesc` / `addICECandidate`
/ `connAddTrack` are the corresponding negotiation-engine calls,
`trackWrite` is `track.Write(data)`, and `logMsg` is a line written to the
log. -/
inductive Event where
  | sendMessage (name : String) (payload : String)
  | signalClose
  | peerConnClose
  | deregister (id : String)
  | setRemoteDesc (sdp : String)
  | setLocalDesc (sdp : String)
  | addICECandidate (candidate : String)
  | connAddTrack (trackID : String) (streamID : String)
  | trackWrite (payload : List Nat)
  | logMsg (line : String)
deriving DecidableEq, Repr

/-- The PeerData record shared with every session.  Its declaration lives
in the connection package outside the shown files; the fields are taken
from their uses in src/connection/peer.go: `data.id` (deregistration key),
`data.trackID`, `data.streamID`, `data.mtu` (track setup), and the mutable
lifecycle flags `data.running` (run) and `data.closed` (Close).  The
`api`/`config` fields are consumed only by the external engine at
construction and carry no information the lifecycle reads, so they are
omitted. -/
structure PeerData where
  id : String
  trackID : String
  streamID : String
  mtu : Nat
  running : Bool
  closed : Bool
deriving DecidableEq, Repr

/-- An outbound media track (webrtc.TrackLocalStaticRTP), identified by the
track/stream identity it was created with. -/
structure Track where
  trackID : String
  streamID : String
deriving DecidableEq, Repr

/-- The per-session state of a RemotePeer: the outbound track (`nil` until
`addTrack` succeeds, hence an `Option`) and the shared `data` record.  The
`signal`, `stream` and `close` handles are pure capabilities whose uses are
recorded in the event trace. -/
structure RemotePeer where
  track : Option Track
  data : PeerData
deriving DecidableEq, Repr

/-- Connection states reported by the negotiation engine
(webrtc.PeerConnectionState). -/
inductive PeerConnectionState where
  | new
  | connecting
  | connected
  | disconnected
  | failed
  | closedState
deriving DecidableEq, Repr

/-- RemotePeer.Close(reason): if `data.closed` is already set, return at
once; otherwise log, send a `close` event with the reason, close the
signal channel, close the negotiation-engine connection, send the session
id on the deregistration channel, and finally set `data.closed`. -/
def RemotePeer.Close (peer : RemotePeer) (reason : String) :
    RemotePeer × List Event :=
  if peer.data.closed then
    (peer, [])
  else
    ({ peer with data := { peer.data with closed := true } },
     [Event.logMsg ("Closing peer connection, reason: " ++ reason),
      Event.sendMessage "close" reason,
      Event.signalClose,
      Event.peerConnClose,
      Event.deregister peer.data.id])

/-- A sequence of sequential calls to Close, threading the state and
concatenating the traces. -/
def closeSeq (peer : RemotePeer) : List String → RemotePeer × List Event
  | [] => (peer, [])
  | r :: rs =>
      let step := peer.Close r
      let rest := closeSeq step.1 rs
      (rest.1, step.2 ++ rest.2)

/-- Handler for the `offer` signaling event: always reply with a `reject`
event carrying "unexpected offer", then Close with reason "misbehaving
host".  The message payload is ignored by the Go handler. -/
def RemotePeer.onSignalOffer (peer : RemotePeer) (_msg : String) :
    RemotePeer × List Event :=
  let step := peer.Close "misbehaving host"
  (step.1, Event.sendMessage "reject" "unexpected offer" :: step.2)

/-- Handler for the `reject` signaling event: log the peer's message and
nothing else. -/
def RemotePeer.onSignalReject (peer : RemotePeer) (msg : String) :
    RemotePeer × List Event :=
  (peer, [Event.logMsg ("Peer rejected signal with message " ++ msg)])

/-- Handler for the `close` signaling event: log the peer's message and
Close with reason "ok". -/
def RemotePeer.onSignalClose (peer : RemotePeer) (msg : String) :
    RemotePeer × List Event :=
  let step := peer.Close "ok"
  (step.1,
   Event.logMsg ("Remote peer requested close with message: " ++ msg)
     :: step.2)

/-- Handler for the `answer` signaling event.  `parsed` is the outcome of
json.Unmarshal of the payload into a string (`none` on parse error), and
`setRemoteOk` is whether SetRemoteDescription on the engine succeeds.  On
parse error: log, send `reject` with "invalid answer", Close "failed to
parse answer".  Otherwise SetRemoteDescription is invoked with the parsed
SDP; on failure: log and Close "failed to add answer"; on success nothing
more happens. -/
def RemotePeer.onSignalAnswer (peer : RemotePeer) (parsed : Option String)
    (setRemoteOk : Bool) : RemotePeer × List Event :=
  match parsed with
  | none =>
      let step := peer.Close "failed to parse answer"
      (step.1,
       Event.logMsg "RemotePeer: onAnswer: Unmarshal failed"
         :: Event.sendMessage "reject" "invalid answer"
         :: step.2)
  | some ans =>
      if setRemoteOk then
        (peer, [Event.setRemoteDesc ans])
      else
        let step := peer.Close "failed to add answer"
        (step.1,
         Event.setRemoteDesc ans
           :: Event.logMsg "RemotePeer: onAnswer: SetRemoteDescription failed"
           :: step.2)

/-- Handler for the `candidate` signaling event.  `parsed` is the outcome
of json.Unmarshal into an ICECandidateInit (`none` on parse error; the
candidate is kept abstract as its JSON text), `addOk` is whether
AddICECandidate succeeds.  On parse error: log, send `reject` with
"invalid candidate", Close "failed to parse candidate".  Otherwise
AddICECandidate is invoked; on failure log and Close "failed to add
candidate". -/
def RemotePeer.onSignalCandidate (peer : RemotePeer)
    (parsed : Option String) (addOk : Bool) : RemotePeer × List Event :=
  match parsed with
  | none =>
      let step := peer.Close "failed to parse candidate"
      (step.1,
       Event.logMsg "RemotePeer: onCandidate: Unmarshal failed"
         :: Event.sendMessage "reject" "invalid candidate"
         :: step.2)
  | some c =>
      if addOk then
        (peer, [Event.addICECandidate c])
      else
        let step := peer.Close "failed to add candidate"
        (step.1,
         Event.addICECandidate c
           :: Event.logMsg "RemotePeer: onCandidate: AddICECandidate failed"
           :: step.2)

/-- Callback for locally discovered ICE candidates: a nil candidate
(end-of-candidates marker, `none` here) is dropped; otherwise the
candidate's JSON is sent as a `candidate` event, and a send failure closes
the session with "failed to send candidate". -/
def RemotePeer.onICECandidate (peer : RemotePeer)
    (candidate : Option String) (sendOk : Bool) : RemotePeer × List Event :=
  match candidate with
  | none => (peer, [])
  | some c =>
      if sendOk then
        (peer, [Event.sendMessage "candidate" c])
      else
        let step := peer.Close "failed to send candidate"
        (step.1, Event.sendMessage "candidate" c :: step.2)

/-- Callback for connection-state changes: on `connected`, if
`data.running` is not set, spawn the forwarding loop (`go peer.run()`).
The returned Bool is whether the loop is started; all other states fall
through to the empty default branch. -/
def RemotePeer.onConnectionStateChange (peer : RemotePeer)
    (state : PeerConnectionState) : Bool :=
  match state with
  | PeerConnectionState.connected => !peer.data.running
  | _ => false

/-- How one activation of the forwarding loop ends.  `closedWith reason`
means the loop returned after calling Close with that reason; `blocked`
means the loop is parked on a receive from a still-open, currently empty
feed; `spinning` means the loop never left the busy-wait on a nil track. -/
inductive RunOutcome where
  | closedWith (reason : String)
  | blocked
  | spinning
deriving DecidableEq, Repr

/-- Body of RemotePeer.run after the track busy-wait: receive from the
inbound feed and write to the track until one side fails.  The
environment's behaviour is an explicit finite prefix: `feed` lists the
payloads delivered, each paired with whether its `track.Write` succeeds,
and `feedClosed` says whether the channel closes after that prefix (if it
does, the receive reports `ok = false` and the loop logs and calls Close
"failed to read stream"; if not, the loop blocks on the next receive).  A
failing write logs and calls Close "failed to write track". -/
def RemotePeer.runLoop (peer : RemotePeer) :
    List (List Nat × Bool) → Bool → RemotePeer × List Event × RunOutcome
  | [], true =>
      let step := peer.Close "failed to read stream"
      (step.1,
       Event.logMsg "RemotePeer: run: channel closed" :: step.2,
       RunOutcome.closedWith "failed to read stream")
  | [], false => (peer, [], RunOutcome.blocked)
  | (payload, writeOk) :: rest, feedClosed =>
      if writeOk then
        let next := peer.runLoop rest feedClosed
        (next.1, Event.trackWrite payload :: next.2.1, next.2.2)
      else
        let step := peer.Close "failed to write track"
        (step.1,
         Event.trackWrite payload
           :: Event.logMsg "RemotePeer: run: Write failed"
           :: step.2,
         RunOutcome.closedWith "failed to write track")

/-- RemotePeer.run: set `data.running`, busy-wait while `track == nil`
(with a nil track the wait never terminates: outcome `spinning`, no
events), then run the receive/write loop; the deferred reset of
`data.running` fires only when the function returns, i.e. on the
`closedWith` outcomes. -/
def RemotePeer.run (peer : RemotePeer) (feed : List (List Nat × Bool))
    (feedClosed : Bool) : RemotePeer × List Event × RunOutcome :=
  let started : RemotePeer :=
    { peer with data := { peer.data with running := true } }
  match started.track with
  | none => (started, [], RunOutcome.spinning)
  | some _ =>
      let res := started.runLoop feed feedClosed
      match res.2.2 with
      | RunOutcome.closedWith _ =>
          ({ res.1 with data := { res.1.data with running := false } },
           res.2.1, res.2.2)
      | _ => res

/-- RemotePeer.addTrack.  `createOk` is whether NewTrackLocalStaticRTP
succeeds (on failure: log and Close "failed to create track"; `peer.track`
is not assigned), `addOk` is whether AddTrack on the connection succeeds
(on failure: log and Close "failed to add track"; note the Go code assigns
`peer.track` before calling AddTrack).  The created track carries the
shared `data.trackID` / `data.streamID` identity.  The spawned RTP-sender
drain goroutine only reads from the engine and is not traced. -/
def RemotePeer.addTrack (peer : RemotePeer) (createOk addOk : Bool) :
    RemotePeer × List Event :=
  if createOk then
    let t : Track := { trackID := peer.data.trackID,
                       streamID := peer.data.streamID }
    let assigned : RemotePeer := { peer with track := some t }
    if addOk then
      (assigned, [Event.connAddTrack t.trackID t.streamID])
    else
      let step := assigned.Close "failed to add track"
      (step.1,
       Event.connAddTrack t.trackID t.streamID
         :: Event.logMsg "RemotePeer: addTrack: AddTrack failed"
         :: step.2)
  else
    let step := peer.Close "failed to create track"
    (step.1,
     Event.logMsg "RemotePeer: addTrack: NewTrackLocalStaticRTP failed"
       :: step.2)

/-- RemotePeer.beginHandshake (the `go signal.Listen()` spawn is the
transport's receive pump and is not traced).  `offer` is the outcome of
CreateOffer (`none` on failure: log and Close "failed to create offer"),
`setLocalOk` whether SetLocalDescription succeeds (failure: log and Close
"failed to add offer"), `sendOk` whether sending the `offer` event with
the offer's SDP succeeds (failure: log and Close "failed to send
offer"). -/
def RemotePeer.beginHandshake (peer : RemotePeer) (offer : Option String)
    (setLocalOk sendOk : Bool) : RemotePeer × List Event :=
  match offer with
  | none =>
      let step := peer.Close "failed to create offer"
      (step.1,
       Event.logMsg "RemotePeer: beginHandshake: CreateOffer failed"
         :: step.2)
  | some sdp =>
      if setLocalOk then
        if sendOk then
          (peer, [Event.setLocalDesc sdp, Event.sendMessage "offer" sdp])
        else
          let step := peer.Close "failed to send offer"
          (step.1,
           Event.setLocalDesc sdp
             :: Event.sendMessage "offer" sdp
             :: Event.logMsg "RemotePeer: beginHandshake: SendMessage failed"
             :: step.2)
      else
        let step := peer.Close "failed to add offer"
        (step.1,
         Event.setLocalDesc sdp
           :: Event.logMsg "RemotePeer: beginHandshake: SetLocalDescription failed"
           :: step.2)

/-- newRemotePeer: build the session record over the given shared data
with a nil track; if NewPeerConnection failed (`connOk = false`) the
session is closed with "failed to create peer connection" and the Go
function returns nil (the Bool in the result is false).  Otherwise the
five signaling handlers and the two engine callbacks are registered
(capability wiring, not traced), then addTrack and beginHandshake run.  The
returned Bool is whether the Go constructor returned a non-nil peer. -/
def newRemotePeer (d : PeerData) (connOk : Bool) (createOk addOk : Bool)
    (offer : Option String) (setLocalOk sendOk : Bool) :
    RemotePeer × List Event × Bool :=
  let fresh : RemotePeer := { track := none, data := d }
  if connOk then
    let afterTrack := fresh.addTrack createOk addOk
    let afterHandshake := afterTrack.1.beginHandshake offer setLocalOk sendOk
    (afterHandshake.1, afterTrack.2 ++ afterHandshake.2, true)
  else
    let step := fresh.Close "failed to create peer connection"
    (step.1, step.2, false)

/-- A concrete session state used for counterexamples, with the parameters
of src/main.go (track id "video", stream id "cam1", MTU 1600) and the
lifecycle flags both clear. -/
def samplePeer : RemotePeer :=
  { track := none,
    data := { id := "peer0", trackID := "video", streamID := "cam1",
              mtu := 1600, running := false, closed := false } }

/-- A concrete track matching samplePeer's identity. -/
def sampleTrack : Track := { trackID := "video", streamID := "cam1" }

/-- Whether an event is a `close` signaling message to the peer. -/
def isCloseMsg : Event → Bool
  | Event.sendMessage "close" _ => true
  | _ => false

/-- Whether an event is a `reject` signaling message to the peer. -/
def isRejectMsg : Event → Bool
  | Event.sendMessage "reject" _ => true
  | _ => false

/-- Whether an event is a SetRemoteDescription call on the engine. -/
def isSetRemoteDesc : Event → Bool
  | Event.setRemoteDesc _ => true
  | _ => false

/-- Whether an event is the release of the negotiation-engine
connection. -/
def isPeerConnClose : Event → Bool
  | Event.peerConnClose => true
  | _ => false

/-- Whether an event is a push onto the deregistration sink. -/
def isDeregister : Event → Bool
  | Event.deregister _ => true
  | _ => false

/-- Whether an event is a write to the outbound track. -/
def isTrackWrite : Event → Bool
  | Event.trackWrite _ => true
  | _ => false

/-- The configuration fields of the shared record (everything except the
mutable lifecycle flags `running` and `closed`) agree. -/
def sameConfig (d1 d2 : PeerData) : Prop :=
  d1.id = d2.id ∧ d1.trackID = d2.trackID ∧
    d1.streamID = d2.streamID ∧ d1.mtu = d2.mtu

theorem sameConfig_refl (d : PeerData) : sameConfig d d :=
  ⟨rfl, rfl, rfl, rfl⟩

theorem sameConfig_trans {a b c : PeerData}
    (h1 : sameConfig a b) (h2 : sameConfig b c) : sameConfig a c :=
  ⟨h1.1.trans h2.1, h1.2.1.trans h2.2.1, h1.2.2.1.trans h2.2.2.1,
   h1.2.2.2.trans h2.2.2.2⟩

/-- Close touches only the `closed` flag of the shared record. -/
theorem sameConfig_close (peer : RemotePeer) (reason : String) :
    sameConfig (peer.Close reason).1.data peer.data := by
  cases h : peer.data.closed <;>
    simp [RemotePeer.Close, h, sameConfig]

/-- Close never assigns the track field. -/
theorem close_track (peer : RemotePeer) (reason : String) :
    (peer.Close reason).1.track = peer.track := by
  cases h : peer.data.closed <;> simp [RemotePeer.Close, h]

/-- Close on an already-closed session is the identity with no events. -/
theorem close_of_closed (peer : RemotePeer) (h : peer.data.closed = true)
    (reason : String) : peer.Close reason = (peer, []) := by
  simp [RemotePeer.Close, h]

/-- Close always leaves the session closed. -/
theorem close_closed (peer : RemotePeer) (reason : String) :
    (peer.Close reason).1.data.closed = true := by
  cases h : peer.data.closed <;> simp [RemotePeer.Close, h]

/-- A sequence of Close calls on an already-closed session does nothing. -/
theorem closeSeq_of_closed (peer : RemotePeer)
    (h : peer.data.closed = true) :
    ∀ reasons : List String, closeSeq peer reasons = (peer, []) := by
  intro reasons
  induction reasons with
  | nil => rfl
  | cons r rs ih => simp [closeSeq, close_of_closed peer h, ih]

/-- Offer handler touches the shared record only through Close. -/
theorem sameConfig_onSignalOffer (peer : RemotePeer) (msg : String) :
    sameConfig (peer.onSignalOffer msg).1.data peer.data := by
  simp only [RemotePeer.onSignalOffer]
  exact sameConfig_close _ _

/-- Close handler touches the shared record only through Close. -/
theorem sameConfig_onSignalClose (peer : RemotePeer) (msg : String) :
    sameConfig (peer.onSignalClose msg).1.data peer.data := by
  simp only [RemotePeer.onSignalClose]
  exact sameConfig_close _ _

/-- Answer handler touches the shared record only through Close. -/
theorem sameConfig_onSignalAnswer (peer : RemotePeer)
    (parsed : Option String) (setRemoteOk : Bool) :
    sameConfig (peer.onSignalAnswer parsed setRemoteOk).1.data peer.data := by
  cases parsed with
  | none =>
      simp only [RemotePeer.onSignalAnswer]
      exact sameConfig_close _ _
  | some s =>
      cases setRemoteOk
      · simp only [RemotePeer.onSignalAnswer, Bool.false_eq_true, if_false]
        exact sameConfig_close _ _
      · simp only [RemotePeer.onSignalAnswer, if_true]
        exact sameConfig_refl _

/-- Candidate handler touches the shared record only through Close. -/
theorem sameConfig_onSignalCandidate (peer : RemotePeer)
    (parsed : Option String) (addOk : Bool) :
    sameConfig (peer.onSignalCandidate parsed addOk).1.data peer.data := by
  cases parsed with
  | none =>
      simp only [RemotePeer.onSignalCandidate]
      exact sameConfig_close _ _
  | some s =>
      cases addOk
      · simp only [RemotePeer.onSignalCandidate, Bool.false_eq_true, if_false]
        exact sameConfig_close _ _
      · simp only [RemotePeer.onSignalCandidate, if_true]
        exact sameConfig_refl _

/-- ICE-candidate callback touches the shared record only through Close. -/
theorem sameConfig_onICECandidate (peer : RemotePeer)
    (candidate : Option String) (sendOk : Bool) :
    sameConfig (peer.onICECandidate candidate sendOk).1.data peer.data := by
  cases candidate with
  | none => exact sameConfig_refl _
  | some c =>
      cases sendOk
      · simp only [RemotePeer.onICECandidate, Bool.false_eq_true, if_false]
        exact sameConfig_close _ _
      · simp only [RemotePeer.onICECandidate, if_true]
        exact sameConfig_refl _

/-- addTrack assigns the track field and otherwise touches the shared
record only through Close. -/
theorem sameConfig_addTrack (peer : RemotePeer) (createOk addOk : Bool) :
    sameConfig (peer.addTrack createOk addOk).1.data peer.data := by
  cases createOk
  · simp only [RemotePeer.addTrack, Bool.false_eq_true, if_false]
    exact sameConfig_close _ _
  · cases addOk
    · simp only [RemotePeer.addTrack, if_true, Bool.false_eq_true, if_false]
      exact sameConfig_close _ _
    · simp only [RemotePeer.addTrack, if_true]
      exact sameConfig_refl _

/-- beginHandshake touches the shared record only through Close. -/
theorem sameConfig_beginHandshake (peer : RemotePeer)
    (offer : Option String) (setLocalOk sendOk : Bool) :
    sameConfig (peer.beginHandshake offer setLocalOk sendOk).1.data
      peer.data := by
  cases offer with
  | none =>
      simp only [RemotePeer.beginHandshake]
      exact sameConfig_close _ _
  | some sdp =>
      cases setLocalOk
      · simp only [RemotePeer.beginHandshake, Bool.false_eq_true, if_false]
        exact sameConfig_close _ _
      · cases sendOk
        · simp only [RemotePeer.beginHandshake, if_true, Bool.false_eq_true,
            if_false]
          exact sameConfig_close _ _
        · simp only [RemotePeer.beginHandshake, if_true]
          exact sameConfig_refl _

/-- The receive/write loop touches the shared record only through Close. -/
theorem sameConfig_runLoop (feed : List (List Nat × Bool)) :
    ∀ (peer : RemotePeer) (fc : Bool),
      sameConfig (peer.runLoop feed fc).1.data peer.data := by
  induction feed with
  | nil =>
      intro peer fc
      cases fc
      · exact sameConfig_refl _
      · simp only [RemotePeer.runLoop]
        exact sameConfig_close _ _
  | cons hd tl ih =>
      intro peer fc
      obtain ⟨payload, writeOk⟩ := hd
      cases writeOk
      · simp only [RemotePeer.runLoop, Bool.false_eq_true, if_false]
        exact sameConfig_close _ _
      · simp only [RemotePeer.runLoop, if_true]
        exact ih peer fc

/-- Toggling the running flag leaves the configuration fields alone. -/
theorem sameConfig_setRunning (d : PeerData) (b : Bool) :
    sameConfig { d with running := b } d := by
  simp [sameConfig]

/-- The forwarding loop touches the shared record only through the running
flag and Close. -/
theorem sameConfig_run (peer : RemotePeer) (feed : List (List Nat × Bool))
    (fc : Bool) : sameConfig (peer.run feed fc).1.data peer.data := by
  unfold RemotePeer.run
  cases htrack : peer.track with
  | none =>
      simp only [htrack]
      exact sameConfig_setRunning _ _
  | some t =>
      simp only [htrack]
      have h2 := sameConfig_runLoop feed
        ({ track := some t, data := { peer.data with running := true } }) fc
      have h4 := sameConfig_trans h2 (sameConfig_setRunning peer.data true)
      split
      · exact ⟨h4.1, h4.2.1, h4.2.2.1, h4.2.2.2⟩
      · exact h4

/-- Construction touches the shared record only through addTrack,
beginHandshake and Close. -/
theorem sameConfig_newRemotePeer (d : PeerData) (connOk createOk addOk : Bool)
    (offer : Option String) (setLocalOk sendOk : Bool) :
    sameConfig
      (newRemotePeer d connOk createOk addOk offer setLocalOk sendOk).1.data
      d := by
  cases connOk
  · simp only [newRemotePeer, Bool.false_eq_true, if_false]
    exact sameConfig_close { track := none, data := d } _
  · simp only [newRemotePeer, if_true]
    exact sameConfig_trans
      (sameConfig_beginHandshake _ offer setLocalOk sendOk)
      (sameConfig_addTrack { track := none, data := d } createOk addOk)

/-- Claim C1: Close is idempotent.  A call on an already-closed session
(any state with the closed flag set) returns the state unchanged and emits
no event; and over any nonempty sequence of sequential Close calls on a
fresh (not-closed) session, the peer close notification, the connection
release, and the deregistration push each occur exactly once in the
combined trace. -/
theorem claim_C1_close_idempotent :
    (∀ (tr : Option Track) (d : PeerData) (reason : String),
       RemotePeer.Close { track := tr, data := { d with closed := true } }
           reason
         = ({ track := tr, data := { d with closed := true } }, [])) ∧
    (∀ (tr : Option Track) (d : PeerData) (r : String) (rs : List String),
       (closeSeq { track := tr, data := { d with closed := false } }
           (r :: rs)).2.countP isCloseMsg = 1 ∧
       (closeSeq { track := tr, data := { d with closed := false } }
           (r :: rs)).2.countP isPeerConnClose = 1 ∧
       (closeSeq { track := tr, data := { d with closed := false } }
           (r :: rs)).2.countP isDeregister = 1) := by
  constructor
  · intro tr d reason
    simp [RemotePeer.Close]
  · intro tr d r rs
    have hfirst :
        RemotePeer.Close { track := tr, data := { d with closed := false } } r
          = ({ track := tr, data := { d with closed := true } },
             [Event.logMsg ("Closing peer connection, reason: " ++ r),
              Event.sendMessage "close" r,
              Event.signalClose,
              Event.peerConnClose,
              Event.deregister d.id]) := by
      simp [RemotePeer.Close]
    have hrest :
        closeSeq
            ({ track := tr, data := { d with closed := true } } : RemotePeer)
            rs
          = ({ track := tr, data := { d with closed := true } }, []) :=
      closeSeq_of_closed _ rfl rs
    simp [closeSeq, hfirst, hrest, isCloseMsg, isPeerConnClose, isDeregister,
      List.countP_cons]

/-- Claim C5: on the first invocation of Close on a not-closed session the
trace is, in order, the log line, the `close` event to the peer with the
reason, the signal-channel close, the connection release, and the
deregistration push, and the resulting state has the closed flag set (the
flag is assigned after all of these actions).  The peer notification thus
precedes every resource release. -/
theorem claim_C5_close_order :
    ∀ (tr : Option Track) (d : PeerData) (reason : String),
      RemotePeer.Close { track := tr, data := { d with closed := false } }
          reason
        = ({ track := tr, data := { d with closed := true } },
           [Event.logMsg ("Closing peer connection, reason: " ++ reason),
            Event.sendMessage "close" reason,
            Event.signalClose,
            Event.peerConnClose,
            Event.deregister d.id]) := by
  intro tr d reason
  simp [RemotePeer.Close]

/-- Claim C2 counterexample: on a concrete open session, the handler for a
`reject` event from the peer leaves the closed flag false and only writes
a log line — it does not drive the session to Closed, contradicting the
claim that a `reject` event closes the session. -/
theorem claim_C2_counterexample :
    (samplePeer.onSignalReject "busy").1.data.closed = false ∧
    (samplePeer.onSignalReject "busy").2
      = [Event.logMsg "Peer rejected signal with message busy"] := by
  decide

/-- Claim C2 amended: receiving a `close` event from the peer drives the
session to Closed regardless of the current state, but receiving a
`reject` event only logs the peer's message and leaves the session state
unchanged. -/
theorem claim_C2_amended_close_event_closes :
    ∀ (tr : Option Track) (d : PeerData) (msg : String),
      (RemotePeer.onSignalClose { track := tr, data := d } msg).1.data.closed
          = true ∧
      (RemotePeer.onSignalReject { track := tr, data := d } msg).1
          = { track := tr, data := d } := by
  intro tr d msg
  refine ⟨?_, rfl⟩
  simp only [RemotePeer.onSignalClose]
  exact close_closed _ _

/-- Claim C8: on any session state, the `offer` handler first sends a
`reject` event with payload "unexpected offer" and leaves the session in
the Closed state; on a not-closed state the full trace is the reject, the
Close log line, the `close` event with reason "misbehaving host", the
signal-channel close, the connection release and the deregistration
push. -/
theorem claim_C8_offer_rejected_and_closed :
    ∀ (tr : Option Track) (d : PeerData) (msg : String),
      (RemotePeer.onSignalOffer { track := tr, data := d } msg).1.data.closed
          = true ∧
      (∃ rest,
        (RemotePeer.onSignalOffer { track := tr, data := d } msg).2
          = Event.sendMessage "reject" "unexpected offer" :: rest) ∧
      (RemotePeer.onSignalOffer
          { track := tr, data := { d with closed := false } } msg).2
        = [Event.sendMessage "reject" "unexpected offer",
           Event.logMsg
             ("Closing peer connection, reason: " ++ "misbehaving host"),
           Event.sendMessage "close" "misbehaving host",
           Event.signalClose,
           Event.peerConnClose,
           Event.deregister d.id] := by
  intro tr d msg
  refine ⟨?_, ⟨_, rfl⟩, ?_⟩
  · simp only [RemotePeer.onSignalOffer]
    exact close_closed _ _
  · simp [RemotePeer.onSignalOffer, RemotePeer.Close]

/-- Claim C9: when the `answer` payload fails to parse, the handler never
invokes SetRemoteDescription (no such call appears in the trace) and the
session ends with the closed flag set, whatever the previous state and
whatever the engine would have answered. -/
theorem claim_C9_malformed_answer_no_remote_desc :
    ∀ (tr : Option Track) (d : PeerData) (setRemoteOk : Bool),
      (RemotePeer.onSignalAnswer { track := tr, data := d } none
          setRemoteOk).2.countP isSetRemoteDesc = 0 ∧
      (RemotePeer.onSignalAnswer { track := tr, data := d } none
          setRemoteOk).1.data.closed = true := by
  intro tr d setRemoteOk
  constructor
  · cases h : d.closed <;>
      simp [RemotePeer.onSignalAnswer, RemotePeer.Close, h,
        isSetRemoteDesc, List.countP_cons]
  · simp only [RemotePeer.onSignalAnswer]
    exact close_closed _ _

/-- Claim C3 counterexample: on a concrete open session, Close writes the
`closed` field of the shared record (false before the call, true after),
so the record passed to the session is not left unmutated by every
operation as the claim states. -/
theorem claim_C3_counterexample :
    samplePeer.data.closed = false ∧
    (samplePeer.Close "shutdown").1.data.closed = true := by
  decide

/-- Claim C3 amended: every operation of a session — construction, each
signaling handler, the ICE-candidate callback, the forwarding loop, track
setup, the handshake and Close — preserves the configuration fields of
the shared record (id, track identity, stream identity, MTU); only the
mutable lifecycle flags `closed` and `running`, stored in the same shared
record, are written (by Close and by the forwarding loop). -/
theorem claim_C3_amended_config_never_written :
    ∀ (peer : RemotePeer) (reason msg : String) (parsed : Option String)
      (b1 b2 : Bool) (cand offer : Option String)
      (feed : List (List Nat × Bool)) (fc : Bool) (d : PeerData),
      sameConfig (peer.Close reason).1.data peer.data ∧
      sameConfig (peer.onSignalOffer msg).1.data peer.data ∧
      sameConfig (peer.onSignalReject msg).1.data peer.data ∧
      sameConfig (peer.onSignalClose msg).1.data peer.data ∧
      sameConfig (peer.onSignalAnswer parsed b1).1.data peer.data ∧
      sameConfig (peer.onSignalCandidate parsed b1).1.data peer.data ∧
      sameConfig (peer.onICECandidate cand b1).1.data peer.data ∧
      sameConfig (peer.addTrack b1 b2).1.data peer.data ∧
      sameConfig (peer.beginHandshake offer b1 b2).1.data peer.data ∧
      sameConfig (peer.run feed fc).1.data peer.data ∧
      sameConfig
        (newRemotePeer d b1 b2 b1 offer b2 b1).1.data d := by
  intro peer reason msg parsed b1 b2 cand offer feed fc d
  exact ⟨sameConfig_close peer reason,
    sameConfig_onSignalOffer peer msg,
    sameConfig_refl _,
    sameConfig_onSignalClose peer msg,
    sameConfig_onSignalAnswer peer parsed b1,
    sameConfig_onSignalCandidate peer parsed b1,
    sameConfig_onICECandidate peer cand b1,
    sameConfig_addTrack peer b1 b2,
    sameConfig_beginHandshake peer offer b1 b2,
    sameConfig_run peer feed fc,
    sameConfig_newRemotePeer d b1 b2 b1 offer b2 b1⟩

/-- Claim C4 counterexample: on a concrete open session, an `answer` whose
payload parses but whose SetRemoteDescription call fails closes the
session but sends no `reject` event, contradicting the claim that both
failure kinds send a reject. -/
theorem claim_C4_counterexample :
    (samplePeer.onSignalAnswer (some "v=0") false).2.countP isRejectMsg
        = 0 ∧
    (samplePeer.onSignalAnswer (some "v=0") false).1.data.closed = true := by
  decide

/-- Claim C4 amended: on an `answer` event, a parse failure sends a
`reject` event ("invalid answer") and closes the session with reason
"failed to parse answer"; an apply failure closes the session with reason
"failed to add answer" without sending a reject; and success applies the
remote description and leaves the session state untouched, awaiting ICE
negotiation. -/
theorem claim_C4_amended_answer_branches :
    ∀ (tr : Option Track) (d : PeerData) (setRemoteOk : Bool) (sdp : String),
      ((RemotePeer.onSignalAnswer { track := tr, data := d } none
            setRemoteOk).1.data.closed = true ∧
       (RemotePeer.onSignalAnswer { track := tr, data := d } none
            setRemoteOk).2.countP isRejectMsg = 1) ∧
      (RemotePeer.onSignalAnswer
            { track := tr, data := { d with closed := false } } none
            setRemoteOk).2
        = [Event.logMsg "RemotePeer: onAnswer: Unmarshal failed",
           Event.sendMessage "reject" "invalid answer",
           Event.logMsg
             ("Closing peer connection, reason: " ++ "failed to parse answer"),
           Event.sendMessage "close" "failed to parse answer",
           Event.signalClose,
           Event.peerConnClose,
           Event.deregister d.id] ∧
      ((RemotePeer.onSignalAnswer { track := tr, data := d } (some sdp)
            false).1.data.closed = true ∧
       (RemotePeer.onSignalAnswer { track := tr, data := d } (some sdp)
            false).2.countP isRejectMsg = 0) ∧
      (RemotePeer.onSignalAnswer
            { track := tr, data := { d with closed := false } } (some sdp)
            false).2
        = [Event.setRemoteDesc sdp,
           Event.logMsg "RemotePeer: onAnswer: SetRemoteDescription failed",
           Event.logMsg
             ("Closing peer connection, reason: " ++ "failed to add answer"),
           Event.sendMessage "close" "failed to add answer",
           Event.signalClose,
           Event.peerConnClose,
           Event.deregister d.id] ∧
      RemotePeer.onSignalAnswer { track := tr, data := d } (some sdp) true
        = ({ track := tr, data := d }, [Event.setRemoteDesc sdp]) := by
  intro tr d setRemoteOk sdp
  refine ⟨⟨?_, ?_⟩, ?_, ⟨?_, ?_⟩, ?_, ?_⟩
  · simp only [RemotePeer.onSignalAnswer]
    exact close_closed _ _
  · cases h : d.closed <;>
      simp [RemotePeer.onSignalAnswer, RemotePeer.Close, h, isRejectMsg,
        List.countP_cons]
  · simp [RemotePeer.onSignalAnswer, RemotePeer.Close]
  · simp only [RemotePeer.onSignalAnswer, Bool.false_eq_true, if_false]
    exact close_closed _ _
  · cases h : d.closed <;>
      simp [RemotePeer.onSignalAnswer, RemotePeer.Close, h, isRejectMsg,
        List.countP_cons]
  · simp [RemotePeer.onSignalAnswer, RemotePeer.Close]
  · simp [RemotePeer.onSignalAnswer]

/-- Termination analysis of the receive/write loop: it ends with Close
"failed to read stream" exactly when every delivered write succeeds and
the feed then closes, with Close "failed to write track" exactly when some
delivered write fails, never with any other reason, and whenever it ends
with a Close the resulting state is closed. -/
theorem runLoop_outcome_spec (feed : List (List Nat × Bool)) :
    ∀ (peer : RemotePeer) (fc : Bool),
      ((peer.runLoop feed fc).2.2
          = RunOutcome.closedWith "failed to read stream"
        ↔ feed.all (fun x => x.2) = true ∧ fc = true) ∧
      ((peer.runLoop feed fc).2.2
          = RunOutcome.closedWith "failed to write track"
        ↔ feed.all (fun x => x.2) = false) ∧
      (∀ reason,
        (peer.runLoop feed fc).2.2 = RunOutcome.closedWith reason →
        reason = "failed to read stream" ∨
          reason = "failed to write track") ∧
      (∀ reason,
        (peer.runLoop feed fc).2.2 = RunOutcome.closedWith reason →
        (peer.runLoop feed fc).1.data.closed = true) := by
  induction feed with
  | nil =>
      intro peer fc
      cases fc
      · refine ⟨by simp [RemotePeer.runLoop], by simp [RemotePeer.runLoop],
          ?_, ?_⟩
        · intro reason h
          simp [RemotePeer.runLoop] at h
        · intro reason h
          simp [RemotePeer.runLoop] at h
      · refine ⟨by simp [RemotePeer.runLoop], by simp [RemotePeer.runLoop],
          ?_, ?_⟩
        · intro reason h
          simp only [RemotePeer.runLoop, RunOutcome.closedWith.injEq] at h
          exact Or.inl h.symm
        · intro reason h
          simp only [RemotePeer.runLoop]
          exact close_closed _ _
  | cons hd tl ih =>
      intro peer fc
      obtain ⟨payload, writeOk⟩ := hd
      cases writeOk
      · refine ⟨by simp [RemotePeer.runLoop, List.all_cons],
          by simp [RemotePeer.runLoop, List.all_cons], ?_, ?_⟩
        · intro reason h
          simp only [RemotePeer.runLoop, Bool.false_eq_true, if_false,
            RunOutcome.closedWith.injEq] at h
          exact Or.inr h.symm
        · intro reason h
          simp only [RemotePeer.runLoop, Bool.false_eq_true, if_false]
          exact close_closed _ _
      · have h := ih peer fc
        refine ⟨?_, ?_, ?_, ?_⟩
        · simpa [RemotePeer.runLoop, List.all_cons] using h.1
        · simpa [RemotePeer.runLoop, List.all_cons] using h.2.1
        · intro reason hr
          refine h.2.2.1 reason ?_
          simpa [RemotePeer.runLoop] using hr
        · intro reason hr
          have h5 := h.2.2.2 reason (by simpa [RemotePeer.runLoop] using hr)
          simpa [RemotePeer.runLoop] using h5

/-- The run wrapper passes the loop outcome through unchanged when the
track exists. -/
theorem run_outcome_through (t : Track) (d : PeerData)
    (feed : List (List Nat × Bool)) (fc : Bool) :
    (({ track := some t, data := d } : RemotePeer).run feed fc).2.2
      = (({ track := some t, data := { d with running := true } }
            : RemotePeer).runLoop feed fc).2.2 := by
  simp only [RemotePeer.run]
  split
  · rename_i heq
    simp [heq.symm]
  · rfl

/-- Claim C6: with an existing track, the forwarding loop terminates with
Close "failed to read stream" if and only if the inbound feed delivers
only successful writes and then closes; it terminates with Close "failed
to write track" if and only if some delivered write fails; and it
terminates with a Close under no other reason (otherwise it stays blocked
on the open feed). -/
theorem claim_C6_forwarding_loop_termination :
    ∀ (t : Track) (d : PeerData) (feed : List (List Nat × Bool)) (fc : Bool),
      ((({ track := some t, data := d } : RemotePeer).run feed fc).2.2
          = RunOutcome.closedWith "failed to read stream"
        ↔ feed.all (fun x => x.2) = true ∧ fc = true) ∧
      ((({ track := some t, data := d } : RemotePeer).run feed fc).2.2
          = RunOutcome.closedWith "failed to write track"
        ↔ feed.all (fun x => x.2) = false) ∧
      (∀ reason,
        (({ track := some t, data := d } : RemotePeer).run feed fc).2.2
            = RunOutcome.closedWith reason →
        reason = "failed to read stream" ∨
          reason = "failed to write track") := by
  intro t d feed fc
  have h := runLoop_outcome_spec feed
    ({ track := some t, data := { d with running := true } }) fc
  rw [run_outcome_through t d feed fc]
  exact ⟨h.1, h.2.1, h.2.2.1⟩

/-- Witness for claim C6 at a concrete input: a one-packet feed whose
write fails makes the loop close with "failed to write track", which the
third conjunct classifies. -/
theorem claim_C6_witness :
    ("failed to write track" : String) = "failed to read stream" ∨
      ("failed to write track" : String) = "failed to write track" :=
  (claim_C6_forwarding_loop_termination sampleTrack samplePeer.data
      [([0], false)] true).2.2 "failed to write track" (by decide)

/-- Claim C7: with a nil track the forwarding loop busy-waits forever and
emits no event at all — in particular it never writes to the track — and
addTrack assigns the track field only after the track has been
successfully created (on creation failure the field keeps its previous
value; on creation success it is the freshly created track carrying the
shared identity). -/
theorem claim_C7_no_write_before_track :
    (∀ (d : PeerData) (feed : List (List Nat × Bool)) (fc : Bool),
       ({ track := none, data := d } : RemotePeer).run feed fc
         = ({ track := none, data := { d with running := true } }, [],
            RunOutcome.spinning)) ∧
    (∀ (peer : RemotePeer) (addOk : Bool),
       (peer.addTrack false addOk).1.track = peer.track ∧
       (peer.addTrack true addOk).1.track
         = some { trackID := peer.data.trackID,
                  streamID := peer.data.streamID }) := by
  constructor
  · intro d feed fc
    rfl
  · intro peer addOk
    constructor
    · simp only [RemotePeer.addTrack, Bool.false_eq_true, if_false]
      exact close_track _ _
    · cases addOk
      · simp only [RemotePeer.addTrack, if_true, Bool.false_eq_true,
          if_false]
        exact close_track _ _
      · simp [RemotePeer.addTrack]

/-- Claim C10: the connection-state callback starts the forwarding loop
exactly when the reported state is `connected` and the running flag is
clear; the closed flag is not consulted, so a session whose Close has
completed (closed true, running false) still starts the loop on a
`connected` report. -/
theorem claim_C10_forwarding_start_ignores_closed :
    ∀ (tr : Option Track) (d : PeerData) (st : PeerConnectionState),
      (RemotePeer.onConnectionStateChange { track := tr, data := d } st
          = true
        ↔ st = PeerConnectionState.connected ∧ d.running = false) ∧
      RemotePeer.onConnectionStateChange
          { track := tr, data := { d with running := false, closed := true } }
          PeerConnectionState.connected = true := by
  intro tr d st
  constructor
  · cases st <;> cases h : d.running <;>
      simp [RemotePeer.onConnectionStateChange, h]
  · rfl

/-- Witness for claim C10 at a concrete input: the callback on the sample
session reports that the loop starts on `connected`. -/
theorem claim_C10_witness :
    RemotePeer.onConnectionStateChange samplePeer
        PeerConnectionState.connected = true :=
  (claim_C10_forwarding_start_ignores_closed none samplePeer.data
      PeerConnectionState.connected).1.mpr ⟨rfl, rfl⟩

end WebrtcBroadcast
